import Mathlib

/-
Verification of the coordination contract of `pythia/common/task_loader.py`.

The file shallowly embeds the `TaskLoader` class: its configuration object,
the split-keyed mapping of task collections built by `load_task`, the
dataloader-argument helper `_add_extra_args_for_dataloader` (including the
semantics of its shared mutable default argument), the per-task YAML config
loader `_load_task_config` (over an abstract file-system status), and the
split-keyed dispatch methods.  Task collections record the calls forwarded to
them, so frame and forwarding properties are stated over the call log.
-/

set_option autoImplicit false

namespace TaskLoaderSpec

/-- The `training_parameters` attribute paths read by `TaskLoader`
(spec section 6): `should_not_log`, `evalai_predict`, `num_workers`,
`pin_memory`, `device`, `local_rank`, `distributed`, `batch_size`,
`verbose_dump`.  `local_rank` is `None` or an integer rank. -/
structure TrainingParameters where
  should_not_log : Bool
  evalai_predict : Bool
  num_workers : Nat
  pin_memory : Bool
  device : String
  local_rank : Option Int
  distributed : Bool
  batch_size : Nat
  verbose_dump : Bool
deriving DecidableEq

/-- The global configuration object; only `training_parameters` is read here. -/
structure Config where
  training_parameters : TrainingParameters
deriving DecidableEq

/-- A report carries the split it belongs to (`report.dataset_type`)
plus an opaque payload. -/
structure Report where
  dataset_type : String
  payload : String
deriving DecidableEq

/-- A batch carries the split it belongs to (`batch.dataset_type`)
plus an opaque payload. -/
structure Batch where
  dataset_type : String
  payload : String
deriving DecidableEq

/-- One call forwarded to a task collection, with the arguments the
dispatcher actually passed along. -/
inductive TaskCall where
  | reportMetricsCall (report : Report) (extra : List String)
  | calculateLossCall (report : Report) (extra : List String)
  | prepareBatchCall (batch : Batch)
  | resetMetersCall
  | verboseDumpCall (report : Report) (extra : List String)
deriving DecidableEq

/-- A task collection (`MultiTask`): its split tag `dataset_type` and the
log of calls forwarded to it, in order. -/
structure MultiTask where
  dataset_type : String
  calls : List TaskCall
deriving DecidableEq

/-- Append a forwarded call to a task collection's log. -/
def MultiTask.record (t : MultiTask) (c : TaskCall) : MultiTask :=
  { t with calls := t.calls ++ [c] }

/-- `DistributedSampler(task)`: a distributed partition sampler holding a
reference to the task collection it partitions. -/
structure DistributedSampler where
  dataset : MultiTask
deriving DecidableEq

/-- The `other_args` dict passed to the `DataLoader` constructor.  Only the
keys `sampler`, `shuffle` and `batch_size` are ever written; a `none` field
means the key is absent from the dict. -/
structure OtherArgs where
  sampler : Option DistributedSampler
  shuffle : Option Bool
  batch_size : Option Nat
deriving DecidableEq

/-- The freshly constructed empty dict `{}`. -/
def OtherArgs.empty : OtherArgs :=
  { sampler := none, shuffle := none, batch_size := none }

/-- The `RuntimeError` message raised on a non-divisible batch size:
`"Batch size {} must be divisible by number of GPUs {} used."` formatted
with the batch size and the world size. -/
def errMsg (batch_size world_size : Nat) : String :=
  "Batch size " ++ toString batch_size ++
    " must be divisible by number of GPUs " ++ toString world_size ++ " used."

/-- Outcome of `_add_extra_args_for_dataloader`: the final state of the
(mutated in place) `other_args` dict, and the raised `RuntimeError` message
if any.  On a raise the mutations made before the check persist. -/
structure AddExtraResult where
  args : OtherArgs
  err : Option String
deriving DecidableEq

/-- `_add_extra_args_for_dataloader(self, task, other_args)`.  The world
size is the value returned by the external `get_world_size()`.  If a local
rank is set and distributed mode is on, a `DistributedSampler` over the task
is stored under `sampler`; otherwise `shuffle` is set to `False` and then to
`True` when the task's split tag is not `"test"`.  If the global batch size
is not divisible by the world size a `RuntimeError` is raised; otherwise
`batch_size` is set to the integer quotient. -/
def add_extra_args_for_dataloader (tp : TrainingParameters) (world_size : Nat)
    (task : MultiTask) (other_args : OtherArgs) : AddExtraResult :=
  let other_args :=
    if tp.local_rank.isSome && tp.distributed then
      { other_args with sampler := some { dataset := task } }
    else
      let o := { other_args with shuffle := some false }
      if task.dataset_type ≠ "test" then { o with shuffle := some true } else o
  let batch_size := tp.batch_size
  if batch_size % world_size ≠ 0 then
    { args := other_args, err := some (errMsg batch_size world_size) }
  else
    { args := { other_args with batch_size := some (batch_size / world_size) },
      err := none }

/-- A call to `_add_extra_args_for_dataloader` that omits `other_args`, so
the shared default dict is used.  The default dict is created once at
function definition time and mutated in place by every such call: the input
`defaultDict` is its state before the call and the second component is its
state after the call, which the next default-argument call starts from. -/
def defaultCall (tp : TrainingParameters) (world_size : Nat) (task : MultiTask)
    (defaultDict : OtherArgs) : AddExtraResult × OtherArgs :=
  let r := add_extra_args_for_dataloader tp world_size task defaultDict
  (r, r.args)

/-- Python-level errors that dispatch can raise: a failed dict lookup
(`KeyError`) or a missing instance attribute (`AttributeError`). -/
inductive PyError where
  | keyError (k : String)
  | attributeError (name : String)
deriving DecidableEq

/-- Status of the per-task config file at
`../tasks/<task_name>/config.yml`: absent, present and parsing to a
mapping, or present with malformed YAML (so `yaml.load` raises
`YAMLError`). -/
inductive FileStatus where
  | missing
  | parses (cfg : List (String × String))
  | malformed
deriving DecidableEq

deriving instance DecidableEq for Except

/-- Outcome of `_load_task_config`: the messages printed, and either the
returned configuration mapping or a propagated error. -/
structure LoadOutcome where
  logs : List String
  result : Except PyError (List (String × String))
deriving DecidableEq

/-- The `task_name` attribute of a `TaskLoader` instance.  Neither
`__init__` nor any other method of the class ever assigns
`self.task_name`, so on every instance the attribute is absent. -/
def taskLoaderTaskNameAttr : Option String := none

/-- `_load_task_config(self, task_name)` over the abstract status of the
config file.  A missing file prints a warning and returns `{}`.  On a
`YAMLError` the handler prints a message formatted with `self.task_name`;
when that attribute is absent (`self_task_name = none`) evaluating it
raises an `AttributeError` that escapes the `except yaml.YAMLError`
clause. -/
def load_task_config (file : FileStatus) (self_task_name : Option String)
    (task_name : String) : LoadOutcome :=
  match file with
  | .missing =>
      { logs := ["[Warning] No config present for task " ++ task_name],
        result := .ok [] }
  | .parses cfg => { logs := [], result := .ok cfg }
  | .malformed =>
      match self_task_name with
      | none => { logs := [], result := .error (.attributeError "task_name") }
      | some n =>
          { logs := ["[Error] Task " ++ n ++ "\x27s config yaml error"],
            result := .ok [] }

/-- The `TaskLoader` state after `load_task`: the configuration, the three
split task collections, and the cached `should_not_log` flag.  The
split-to-collection mapping is derived from the three fields by
`TaskLoader.lookup`. -/
structure TaskLoader where
  config : Config
  train_task : MultiTask
  val_task : MultiTask
  test_task : MultiTask
  should_not_log : Bool
deriving DecidableEq

/-- `load_task`: build the three split task collections (fresh `MultiTask`
objects tagged with their split) and cache `should_not_log` from the
configuration. -/
def TaskLoader.load_task (config : Config) : TaskLoader :=
  { config := config
    train_task := { dataset_type := "train", calls := [] }
    val_task := { dataset_type := "val", calls := [] }
    test_task := { dataset_type := "test", calls := [] }
    should_not_log := config.training_parameters.should_not_log }

/-- Lookup in `self.mapping`, whose keys are exactly
`"train"`, `"val"`, `"test"`. -/
def TaskLoader.lookup (tl : TaskLoader) (k : String) : Option MultiTask :=
  if k = "train" then some tl.train_task
  else if k = "val" then some tl.val_task
  else if k = "test" then some tl.test_task
  else none

/-- Write back a mutated task collection through the mapping: the mapping
values alias the `train_task`/`val_task`/`test_task` attributes. -/
def TaskLoader.setTask (tl : TaskLoader) (k : String) (t : MultiTask) :
    TaskLoader :=
  if k = "train" then { tl with train_task := t }
  else if k = "val" then { tl with val_task := t }
  else if k = "test" then { tl with test_task := t }
  else tl

/-- `report_metrics(self, dataset_type, report, *args, **kwargs)`: a no-op
when `should_not_log` is set; otherwise resolve the split through the
mapping (raising `KeyError` on an unknown key) and forward the report and
the extra arguments to that task collection. -/
def TaskLoader.report_metrics (tl : TaskLoader) (dataset_type : String)
    (report : Report) (extra : List String) : Except PyError TaskLoader :=
  if tl.should_not_log then .ok tl
  else
    match tl.lookup dataset_type with
    | none => .error (.keyError dataset_type)
    | some t =>
        .ok (tl.setTask dataset_type
          (t.record (.reportMetricsCall report extra)))

/-- `calculate_loss_and_metrics(self, report, *args, **kwargs)`: resolve via
`report.dataset_type` and forward the report and the extra arguments,
returning the task collection's (opaque) result, here represented by the
forwarded call itself. -/
def TaskLoader.calculate_loss_and_metrics (tl : TaskLoader) (report : Report)
    (extra : List String) : Except PyError (TaskLoader × TaskCall) :=
  match tl.lookup report.dataset_type with
  | none => .error (.keyError report.dataset_type)
  | some t =>
      .ok (tl.setTask report.dataset_type
            (t.record (.calculateLossCall report extra)),
          .calculateLossCall report extra)

/-- `prepare_batch(self, batch, *args, **kwargs)`: resolve via
`batch.dataset_type` and forward only the batch itself; the extra
arguments are accepted but discarded. -/
def TaskLoader.prepare_batch (tl : TaskLoader) (batch : Batch)
    (_extra : List String) : Except PyError (TaskLoader × TaskCall) :=
  match tl.lookup batch.dataset_type with
  | none => .error (.keyError batch.dataset_type)
  | some t =>
      .ok (tl.setTask batch.dataset_type
            (t.record (.prepareBatchCall batch)),
          .prepareBatchCall batch)

/-- `reset_meters(self, dataset_type)`: resolve the explicit split and
forward. -/
def TaskLoader.reset_meters (tl : TaskLoader) (dataset_type : String) :
    Except PyError TaskLoader :=
  match tl.lookup dataset_type with
  | none => .error (.keyError dataset_type)
  | some t => .ok (tl.setTask dataset_type (t.record .resetMetersCall))

/-- `verbose_dump(self, report, *args, **kwargs)`: gated by the
`verbose_dump` configuration flag; when enabled, resolve via
`report.dataset_type` and forward the report and the extra arguments. -/
def TaskLoader.verbose_dump (tl : TaskLoader) (report : Report)
    (extra : List String) : Except PyError TaskLoader :=
  if tl.config.training_parameters.verbose_dump then
    match tl.lookup report.dataset_type with
    | none => .error (.keyError report.dataset_type)
    | some t =>
        .ok (tl.setTask report.dataset_type
          (t.record (.verboseDumpCall report extra)))
  else .ok tl





/-! Concrete data used by witnesses and concrete evaluations. -/

/-- A non-distributed parameter set with batch size 8. -/
def tpW8 : TrainingParameters :=
  { should_not_log := false, evalai_predict := false, num_workers := 2,
    pin_memory := true, device := "cuda", local_rank := none,
    distributed := false, batch_size := 8, verbose_dump := true }

/-- Same as `tpW8` but with batch size 10 (not divisible by world size 3). -/
def tpW10 : TrainingParameters := { tpW8 with batch_size := 10 }

/-- A distributed parameter set with a local rank. -/
def tpDist : TrainingParameters :=
  { tpW8 with local_rank := some 0, distributed := true }

/-- Same as `tpW8` but with `should_not_log` set. -/
def tpSNL : TrainingParameters := { tpW8 with should_not_log := true }

/-- A fresh train-split task collection. -/
def trainTaskW : MultiTask := { dataset_type := "train", calls := [] }

/-- A fresh val-split task collection. -/
def valTaskW : MultiTask := { dataset_type := "val", calls := [] }

/-- A fresh test-split task collection. -/
def testTaskW : MultiTask := { dataset_type := "test", calls := [] }

/-- A loader built by `load_task` from `tpW8`. -/
def loaderW : TaskLoader := TaskLoader.load_task { training_parameters := tpW8 }

/-- A loader built by `load_task` from `tpSNL` (logging suppressed). -/
def loaderSNL : TaskLoader :=
  TaskLoader.load_task { training_parameters := tpSNL }

/-- A report declaring the val split. -/
def reportW : Report := { dataset_type := "val", payload := "r" }

/-- A report declaring the unknown split "foo". -/
def reportFooW : Report := { dataset_type := "foo", payload := "r" }

/-- A batch declaring the train split. -/
def batchW : Batch := { dataset_type := "train", payload := "b" }

/-- A batch declaring the unknown split "foo". -/
def batchFooW : Batch := { dataset_type := "foo", payload := "b" }

/-- Claim C1: when the global batch size is not divisible by the world size,
`_add_extra_args_for_dataloader` raises an invalid-configuration
`RuntimeError` whose message states the batch size and the number of
distributed workers, and no `batch_size` key is added to the argument
mapping. -/
theorem batch_not_divisible_raises (tp : TrainingParameters)
    (world_size : Nat) (task : MultiTask) (other_args : OtherArgs)
    (h : tp.batch_size % world_size ≠ 0) :
    (∃ a b c,
        (add_extra_args_for_dataloader tp world_size task other_args).err
          = some (a ++ toString tp.batch_size ++ b ++ toString world_size ++ c))
    ∧ (add_extra_args_for_dataloader tp world_size task other_args).args.batch_size
        = other_args.batch_size := by
  constructor
  · refine ⟨"Batch size ", " must be divisible by number of GPUs ",
      " used.", ?_⟩
    simp [add_extra_args_for_dataloader, h, errMsg]
  · simp only [add_extra_args_for_dataloader]
    split <;> split <;> (try split) <;> simp_all

/-- Witness for C1 at batch size 10 and world size 3. -/
theorem batch_not_divisible_raises_witness :
    (∃ a b c,
        (add_extra_args_for_dataloader tpW10 3 trainTaskW OtherArgs.empty).err
          = some (a ++ toString tpW10.batch_size ++ b ++ toString (3 : Nat) ++ c))
    ∧ (add_extra_args_for_dataloader tpW10 3 trainTaskW OtherArgs.empty).args.batch_size
        = OtherArgs.empty.batch_size :=
  batch_not_divisible_raises tpW10 3 trainTaskW OtherArgs.empty (by decide)

/-- Claim C2: when the global batch size is divisible by the world size, no
error is raised and the `batch_size` entry of the returned argument mapping
is the exact integer quotient. -/
theorem batch_size_divided_evenly (tp : TrainingParameters) (world_size : Nat)
    (task : MultiTask) (other_args : OtherArgs) (_hws : 0 < world_size)
    (h : tp.batch_size % world_size = 0) :
    (add_extra_args_for_dataloader tp world_size task other_args).err = none
    ∧ (add_extra_args_for_dataloader tp world_size task other_args).args.batch_size
        = some (tp.batch_size / world_size) := by
  simp [add_extra_args_for_dataloader, h]

/-- Witness for C2 at batch size 8 and world size 2. -/
theorem batch_size_divided_evenly_witness :
    (add_extra_args_for_dataloader tpW8 2 trainTaskW OtherArgs.empty).err = none
    ∧ (add_extra_args_for_dataloader tpW8 2 trainTaskW OtherArgs.empty).args.batch_size
        = some (tpW8.batch_size / 2) :=
  batch_size_divided_evenly tpW8 2 trainTaskW OtherArgs.empty (by decide)
    (by decide)

/-- Claim C5: when distributed mode is off or no local rank is set, the
shuffle flag is set to `false` for the test split and to `true` for the
train and val splits. -/
theorem shuffle_policy_non_distributed (tp : TrainingParameters)
    (world_size : Nat) (task : MultiTask) (other_args : OtherArgs)
    (hnd : tp.local_rank = none ∨ tp.distributed = false) :
    (task.dataset_type = "test" →
        (add_extra_args_for_dataloader tp world_size task other_args).args.shuffle
          = some false)
    ∧ ((task.dataset_type = "train" ∨ task.dataset_type = "val") →
        (add_extra_args_for_dataloader tp world_size task other_args).args.shuffle
          = some true) := by
  have hcond : (tp.local_rank.isSome && tp.distributed) = false := by
    rcases hnd with h | h <;> simp [h]
  constructor
  · intro ht
    simp only [add_extra_args_for_dataloader, hcond]
    simp [ht]
    split <;> simp
  · intro ht
    have hne : task.dataset_type ≠ "test" := by
      rcases ht with h | h <;> simp [h]
    simp only [add_extra_args_for_dataloader, hcond]
    simp [hne]
    split <;> simp

/-- Witness for C5 on the test and train splits with no local rank. -/
theorem shuffle_policy_non_distributed_witness :
    (add_extra_args_for_dataloader tpW8 1 testTaskW OtherArgs.empty).args.shuffle
      = some false
    ∧ (add_extra_args_for_dataloader tpW8 1 trainTaskW OtherArgs.empty).args.shuffle
      = some true :=
  ⟨(shuffle_policy_non_distributed tpW8 1 testTaskW OtherArgs.empty
      (Or.inl rfl)).1 rfl,
   (shuffle_policy_non_distributed tpW8 1 trainTaskW OtherArgs.empty
      (Or.inl rfl)).2 (Or.inl rfl)⟩

/-- Claim C6: when distributed mode is on and a local rank is set (and the
batch size divides evenly, so no error is raised), the produced argument
mapping holds a distributed partition sampler over the task collection and
no shuffle flag. -/
theorem distributed_sampler_no_shuffle (tp : TrainingParameters)
    (world_size : Nat) (task : MultiTask) (other_args : OtherArgs)
    (hlr : tp.local_rank.isSome = true) (hd : tp.distributed = true)
    (hsh : other_args.shuffle = none)
    (hdiv : tp.batch_size % world_size = 0) :
    (add_extra_args_for_dataloader tp world_size task other_args).err = none
    ∧ (add_extra_args_for_dataloader tp world_size task other_args).args.sampler
        = some { dataset := task }
    ∧ (add_extra_args_for_dataloader tp world_size task other_args).args.shuffle
        = none := by
  simp [add_extra_args_for_dataloader, hlr, hd, hdiv, hsh]

/-- Witness for C6 at local rank 0 with world size 2. -/
theorem distributed_sampler_no_shuffle_witness :
    (add_extra_args_for_dataloader tpDist 2 trainTaskW OtherArgs.empty).err = none
    ∧ (add_extra_args_for_dataloader tpDist 2 trainTaskW OtherArgs.empty).args.sampler
        = some { dataset := trainTaskW }
    ∧ (add_extra_args_for_dataloader tpDist 2 trainTaskW OtherArgs.empty).args.shuffle
        = none :=
  distributed_sampler_no_shuffle tpDist 2 trainTaskW OtherArgs.empty
    (by decide) (by decide) (by decide) (by decide)

/-- Claim C4 (code bug in the source): the default `other_args={}` dict is
shared across calls.  After one default-argument call with a non-distributed
configuration, the shared default dict still holds the `shuffle` (and
`batch_size`) keys written by that call, so the next default-argument call
starts from a non-empty mapping rather than a fresh one. -/
theorem default_dict_leaks_across_calls :
    (defaultCall tpW8 1 trainTaskW OtherArgs.empty).2.shuffle = some true
    ∧ (defaultCall tpW8 1 trainTaskW OtherArgs.empty).2.batch_size = some 8
    ∧ (defaultCall tpW8 1 trainTaskW OtherArgs.empty).2 ≠ OtherArgs.empty := by
  refine ⟨by decide, by decide, by decide⟩



/-- Claim C7: when `should_not_log` is set, `report_metrics` returns
immediately: the loader state (including every task collection call log) is
unchanged and no error is raised, for every split key. -/
theorem report_metrics_noop_when_should_not_log (tl : TaskLoader)
    (dataset_type : String) (report : Report) (extra : List String)
    (h : tl.should_not_log = true) :
    tl.report_metrics dataset_type report extra = .ok tl := by
  simp [TaskLoader.report_metrics, h]

/-- Witness for C7 on a logging-suppressed loader, with an unknown split. -/
theorem report_metrics_noop_when_should_not_log_witness :
    loaderSNL.report_metrics "weird" reportW ["x"] = .ok loaderSNL :=
  report_metrics_noop_when_should_not_log loaderSNL "weird" reportW ["x"] rfl

/-- Claim C8 counterexample: a dispatch call with the unknown split key
"foo" that does not propagate a lookup failure: with `should_not_log` set,
`report_metrics` returns before the mapping lookup, so the call succeeds
instead of raising `KeyError`. -/
theorem unknown_split_no_lookup_error_when_not_logging :
    loaderSNL.report_metrics "foo" reportFooW [] = .ok loaderSNL
    ∧ loaderSNL.report_metrics "foo" reportFooW []
        ≠ .error (.keyError "foo") := by
  refine ⟨by decide, by decide⟩

/-- Claim C8 as amended: a dispatch call whose given or declared split key
is not one of "train", "val", "test" propagates a `KeyError` unhandled,
except that `report_metrics` returns without any lookup when
`should_not_log` is set and `verbose_dump` returns without any lookup when
the verbose-dump flag is off. -/
theorem unknown_split_lookup_error_amended (tl : TaskLoader) (k : String)
    (report : Report) (batch : Batch) (extra : List String)
    (hk : k ≠ "train" ∧ k ≠ "val" ∧ k ≠ "test")
    (hr : report.dataset_type = k) (hb : batch.dataset_type = k) :
    (tl.should_not_log = false →
        tl.report_metrics k report extra = .error (.keyError k))
    ∧ tl.calculate_loss_and_metrics report extra = .error (.keyError k)
    ∧ tl.prepare_batch batch extra = .error (.keyError k)
    ∧ tl.reset_meters k = .error (.keyError k)
    ∧ (tl.config.training_parameters.verbose_dump = true →
        tl.verbose_dump report extra = .error (.keyError k)) := by
  obtain ⟨h1, h2, h3⟩ := hk
  have hl : tl.lookup k = none := by
    simp [TaskLoader.lookup, h1, h2, h3]
  refine ⟨?_, ?_, ?_, ?_, ?_⟩
  · intro hs
    simp [TaskLoader.report_metrics, hs, hl]
  · simp [TaskLoader.calculate_loss_and_metrics, hr, hl]
  · simp [TaskLoader.prepare_batch, hb, hl]
  · simp [TaskLoader.reset_meters, hl]
  · intro hv
    simp [TaskLoader.verbose_dump, hv, hr, hl]

/-- Witness for the amended C8 at the unknown split key "foo" on a loader
that logs and has verbose dump enabled. -/
theorem unknown_split_lookup_error_amended_witness :
    loaderW.report_metrics "foo" reportFooW [] = .error (.keyError "foo")
    ∧ loaderW.calculate_loss_and_metrics reportFooW []
        = .error (.keyError "foo")
    ∧ loaderW.prepare_batch batchFooW [] = .error (.keyError "foo")
    ∧ loaderW.reset_meters "foo" = .error (.keyError "foo")
    ∧ loaderW.verbose_dump reportFooW [] = .error (.keyError "foo") :=
  have h := unknown_split_lookup_error_amended loaderW "foo" reportFooW
    batchFooW [] ⟨by decide, by decide, by decide⟩ rfl rfl
  ⟨h.1 rfl, h.2.1, h.2.2.1, h.2.2.2.1, h.2.2.2.2 rfl⟩

/-- Claim C9: a missing per-task config file makes `_load_task_config`
print the warning naming the task and return the empty configuration
mapping; no exception is raised, whatever the state of the `task_name`
attribute. -/
theorem missing_config_warns_and_returns_empty
    (self_task_name : Option String) (task_name : String) :
    load_task_config .missing self_task_name task_name
      = { logs := ["[Warning] No config present for task " ++ task_name],
          result := .ok [] } := rfl

/-- Claim C3 (code bug in the source): on malformed YAML the except handler
formats its message with `self.task_name`, an attribute the class never
assigns, so instead of logging a parse error and returning the empty
mapping the call raises an `AttributeError` that propagates to the
caller. -/
theorem malformed_yaml_raises_attribute_error (task_name : String) :
    load_task_config .malformed taskLoaderTaskNameAttr task_name
      = { logs := [], result := .error (.attributeError "task_name") } := rfl

/-- Claim C10: `prepare_batch` resolves through the batch's declared split
and forwards only the batch itself (its result does not depend on the extra
arguments and the recorded call carries none), whereas
`calculate_loss_and_metrics` and `verbose_dump` forward their extra
arguments to the resolved task collection. -/
theorem dispatch_argument_forwarding (tl : TaskLoader) (batch : Batch)
    (report : Report) (extra : List String) (t u : MultiTask)
    (hb : tl.lookup batch.dataset_type = some t)
    (hr : tl.lookup report.dataset_type = some u)
    (hv : tl.config.training_parameters.verbose_dump = true) :
    tl.prepare_batch batch extra = tl.prepare_batch batch []
    ∧ tl.prepare_batch batch extra
        = .ok (tl.setTask batch.dataset_type
                (t.record (.prepareBatchCall batch)),
               .prepareBatchCall batch)
    ∧ tl.calculate_loss_and_metrics report extra
        = .ok (tl.setTask report.dataset_type
                (u.record (.calculateLossCall report extra)),
               .calculateLossCall report extra)
    ∧ tl.verbose_dump report extra
        = .ok (tl.setTask report.dataset_type
                (u.record (.verboseDumpCall report extra))) := by
  refine ⟨rfl, ?_, ?_, ?_⟩
  · simp [TaskLoader.prepare_batch, hb]
  · simp [TaskLoader.calculate_loss_and_metrics, hr]
  · simp [TaskLoader.verbose_dump, hv, hr]

/-- Witness for C10 with extra argument list ["x"] on the train batch and
val report of `loaderW`. -/
theorem dispatch_argument_forwarding_witness :
    loaderW.prepare_batch batchW ["x"] = loaderW.prepare_batch batchW []
    ∧ loaderW.prepare_batch batchW ["x"]
        = .ok (loaderW.setTask "train"
                (trainTaskW.record (.prepareBatchCall batchW)),
               .prepareBatchCall batchW)
    ∧ loaderW.calculate_loss_and_metrics reportW ["x"]
        = .ok (loaderW.setTask "val"
                (valTaskW.record (.calculateLossCall reportW ["x"])),
               .calculateLossCall reportW ["x"])
    ∧ loaderW.verbose_dump reportW ["x"]
        = .ok (loaderW.setTask "val"
                (valTaskW.record (.verboseDumpCall reportW ["x"]))) :=
  dispatch_argument_forwarding loaderW batchW reportW ["x"] trainTaskW
    valTaskW rfl rfl rfl

end TaskLoaderSpec
